import Mathlib

/-!
Shallow embedding of src/update.js.

The whole repository is one file, src/update.js, whose module.exports is a
zero-argument arrow function returning an object literal
{ run: [ step, step, step ] } where each step is
{ method: "shell.run", params: { ... } }.  A params object is embedded as an
association list of string keys to string values, in the source's literal
key order, so that statements about exactly which keys are present can be
made.  The producer itself is embedded as `update`; a state-passing form
`updateSt` makes explicit that the body of the source function performs no
effectful operation (no process spawn, no filesystem or network access, no
assignment to anything outside the function), so any ambient state passes
through unchanged.
-/

/-- One step descriptor of the config: the object literals
{ method: ..., params: { ... } } in src/update.js lines 7-29. -/
structure Step where
  method : String
  params : List (String × String)
deriving DecidableEq, Repr

/-- The object literal bound to the local constant named config in
src/update.js lines 3-31: a record with the single field run holding the
ordered step list. -/
structure Config where
  run : List Step
deriving DecidableEq, Repr

/-- Embedding of the arrow function assigned to module.exports in
src/update.js: zero-argument (the Unit argument stands for the empty
argument list), returning the object literal built on lines 3-31. -/
def update : Unit → Config := fun _ =>
  { run :=
      [ { method := "shell.run"
        , params := [("message", "git pull")] }
      , { method := "shell.run"
        , params := [("message", "git pull --tags"), ("path", "facefusion")] }
      , { method := "shell.run"
        , params := [("message", "git checkout 2.5.3"), ("path", "facefusion")] } ] }

/-- State-passing form of the same function.  The body of module.exports in
src/update.js contains only the construction of an object literal and a
return; it performs no operation on any ambient state, so the translation
threads an arbitrary state through unchanged while producing the same
config value. -/
def updateSt {σ : Type} (s : σ) : σ × Config :=
  (s, update ())

/-- The value of the message key of a step's params object, when present. -/
def Step.message (s : Step) : Option String :=
  List.lookup "message" s.params

/-- The value of the path key of a step's params object, when present. -/
def Step.path (s : Step) : Option String :=
  List.lookup "path" s.params

/-- The list of keys carried by a step's params object, in literal order. -/
def Step.keys (s : Step) : List String :=
  s.params.map Prod.fst

/-- Modelled from the spec, section 4.1: the three literal step descriptors
the contract enumerates, in the stated order, used to compare the source's
output against the spec's words. -/
def specStepList : List Step :=
  [ { method := "shell.run"
    , params := [("message", "git pull")] }
  , { method := "shell.run"
    , params := [("message", "git pull --tags"), ("path", "facefusion")] }
  , { method := "shell.run"
    , params := [("message", "git checkout 2.5.3"), ("path", "facefusion")] } ]

/-- C1: every invocation of the producer returns a step list of exactly the
three literal descriptors in order: index 0 has message "git pull" and no
path; index 1 has message "git pull --tags" and path "facefusion"; index 2
has message "git checkout 2.5.3" and path "facefusion". -/
theorem update_steps_exact (u : Unit) :
    (update u).run.map Step.message =
      [some "git pull", some "git pull --tags", some "git checkout 2.5.3"] ∧
    (update u).run.map Step.path =
      [none, some "facefusion", some "facefusion"] := by
  cases u
  decide

/-- C2: the producer is deterministic: any two invocations return
structurally identical values. -/
theorem update_deterministic (u v : Unit) :
    update u = update v :=
  rfl

/-- C3: the producer is total: it is embedded as a plain function into
Config, not into Option or Except, because its body cannot fail, and every
invocation returns normally with a Config value. -/
theorem update_total (u : Unit) :
    ∃ c : Config, update u = c :=
  ⟨update u, rfl⟩

/-- C4: shape invariant: the returned list has exactly 3 steps, is
non-empty, every step's method equals "shell.run", and every step carries a
message key whose value is a non-empty string. -/
theorem update_shape (u : Unit) :
    (update u).run.length = 3 ∧
    (update u).run ≠ [] ∧
    ∀ s ∈ (update u).run,
      s.method = "shell.run" ∧ s.message ≠ none ∧ s.message ≠ some "" := by
  cases u
  decide

/-- C5: the producer is pure: in the state-passing embedding an arbitrary
ambient state is returned unchanged, and the produced value is exactly the
one the pure function yields; no effect on any state occurs. -/
theorem update_pure {σ : Type} (s : σ) :
    (updateSt s).1 = s ∧ (updateSt s).2 = update () :=
  ⟨rfl, rfl⟩

/-- C6: fresh construction per invocation: a second invocation, run in the
state left by a first one, returns the same value as the first and leaves
the original state intact, so values returned by earlier calls are
unaffected by later invocations. -/
theorem update_fresh {σ : Type} (s : σ) :
    updateSt (updateSt s).1 = (s, (updateSt s).2) :=
  rfl

/-- C7: the producer takes no input: its result is independent of any
ambient state of any type, so it depends on no caller-supplied data,
environment variable, file, or other external state. -/
theorem update_no_input {σ τ : Type} (s : σ) (t : τ) :
    (updateSt s).2 = (updateSt t).2 :=
  rfl

/-- C8: the returned value is not the bare step list but a record with the
single field run (the Config structure has exactly that one field) holding
the ordered step list; reading that field yields the StepList of the spec. -/
theorem update_wraps_run (u : Unit) :
    update u = Config.mk ((update u).run) ∧ (update u).run = specStepList :=
  ⟨rfl, rfl⟩

/-- C9: every step in the returned list has method equal to the literal
string "shell.run". -/
theorem update_method_shell (u : Unit) :
    ∀ s ∈ (update u).run, s.method = "shell.run" := by
  cases u
  decide

/-- Witness for C9: the first step of the returned list is a member of it
and its method is "shell.run". -/
theorem update_method_shell_witness :
    (Step.mk "shell.run" [("message", "git pull")]).method = "shell.run" :=
  update_method_shell () (Step.mk "shell.run" [("message", "git pull")]) (by decide)

/-- C10: the params object of the step at index 0 carries exactly the one
key "message", and the params objects of the steps at indices 1 and 2 carry
exactly the two keys "message" and "path", in that order; no step carries
any other key. -/
theorem update_param_keys (u : Unit) :
    (update u).run.map Step.keys =
      [["message"], ["message", "path"], ["message", "path"]] := by
  cases u
  decide
